import Mathlib

/-!
Shallow embedding of the triage decision engine from `agent/triage.py`:
the rule-based risk classifier, the intervention policy, the classifier
adapter with its fallback, and the severity scorer.

Modelling choices:
* Python floats become `ℚ`; Python ints become `Int`.
* Risk categories and interventions are the exact strings the source uses
  ("Immediate (RED)", "Delayed (YELLOW)", "Minimal (GREEN)"; "Oxygen",
  "ICU", "Ventilator", "Nil").
* The one randomized branch (`random.choice` over two categories) is made
  explicit as a `Bool` parameter `coin`: `true` picks "Delayed (YELLOW)",
  `false` picks "Minimal (GREEN)".
* The loaded classifier (`MODEL`, a pickled object whose `predict` may
  raise) is modelled as `Option (Patient → Except String Int)`: `none` is
  "no model loaded"; `Except.error` is an exception raised during feature
  construction or invocation; `Except.ok c` is a successful class label.
* Python's `str.lower` becomes `strLower` (ASCII character lowering) and
  Python's substring test `needle in haystack` becomes `strContains`.
-/

namespace Triage

/-- Does the first character list start the second one? (helper for the
substring test used by `map_risk_to_score`). -/
def charsLead : List Char → List Char → Bool
  | [], _ => true
  | _ :: _, [] => false
  | a :: as, b :: bs => a == b && charsLead as bs

/-- Does the first character list occur contiguously inside the second? -/
def charsWithin (needle : List Char) : List Char → Bool
  | [] => charsLead needle []
  | b :: bs => charsLead needle (b :: bs) || charsWithin needle bs

/-- Python's `needle in haystack` on strings. -/
def strContains (haystack needle : String) : Bool :=
  charsWithin needle.toList haystack.toList

/-- Python's `str.lower()` (ASCII case folding, as used on the category
strings of this program). -/
def strLower (s : String) : String :=
  String.mk (s.toList.map Char.toLower)

/-- The `Patient` pydantic model of `agent/triage.py`: one vital record. -/
structure Patient where
  age : Int
  sex : Int
  hr : ℚ
  sbp : ℚ
  dbp : ℚ
  rr : ℚ
  spo2 : ℚ
  temp : ℚ
  dyspnea : Int
  chest_pain : Int
  confusion : Int
  comorb : Int
  pulse_pressure : ℚ
  map : ℚ
  shock_index : ℚ
  abnormal_count : Int
deriving DecidableEq

/-- The `PredictionResult` model: (risk category, intervention label). -/
structure PredictionResult where
  risk : String
  intervention : String
deriving DecidableEq

/-- Embedding of `rule_based_intervention(patient, risk_class)` from
`agent/triage.py`. -/
def rule_based_intervention (patient : Patient) (risk_class : String) : String :=
  if patient.spo2 < 88 then "Oxygen"
  else if strLower risk_class = "immediate (red)" then "ICU"
  else if patient.hr > 130 ∨ patient.sbp < 80 ∨ patient.shock_index > 1.2 then "Ventilator"
  else "Nil"

/-- Embedding of `get_rule_based_prediction(patient)` from `agent/triage.py`, with the
`random.choice(["Delayed (YELLOW)", "Minimal (GREEN)"])` call made explicit
as the `coin` parameter. -/
def get_rule_based_prediction (coin : Bool) (patient : Patient) : PredictionResult :=
  let risk :=
    if patient.shock_index > 0.9 ∨ patient.sbp < 90 then "Immediate (RED)"
    else if patient.abnormal_count ≥ 3 ∨ patient.confusion = 1 ∨ patient.chest_pain = 1 then
      "Delayed (YELLOW)"
    else if patient.hr < 100 ∧ patient.sbp > 100 ∧ patient.spo2 > 95 then "Minimal (GREEN)"
    else if coin then "Delayed (YELLOW)" else "Minimal (GREEN)"
  { risk := risk, intervention := rule_based_intervention patient risk }

/-- Embedding of `get_model_prediction(patient)` from `agent/triage.py`. The global
`MODEL` becomes the `model` argument; feature construction plus
`MODEL.predict(input_df)[0]` becomes one fallible call returning either an
exception (`Except.error`) or the predicted class label (`Except.ok`). -/
def get_model_prediction (model : Option (Patient → Except String Int))
    (coin : Bool) (patient : Patient) : PredictionResult :=
  match model with
  | none => get_rule_based_prediction coin patient
  | some clf =>
    match clf patient with
    | Except.error _ => get_rule_based_prediction coin patient
    | Except.ok pred_class =>
      let risk :=
        if pred_class = 0 then "Minimal (GREEN)"
        else if pred_class = 1 then "Delayed (YELLOW)"
        else "Immediate (RED)"
      { risk := risk, intervention := rule_based_intervention patient risk }

/-- Embedding of `map_risk_to_score(risk)` from `agent/triage.py`: substring match on
"RED", then "YELLOW", else the default score. -/
def map_risk_to_score (risk : String) : ℚ :=
  if strContains risk "RED" then 0.9
  else if strContains risk "YELLOW" then 0.6
  else 0.2

/-- A concrete vital record used to instantiate universally quantified
theorems: spec Scenario D (abnormal_count=4, confusion=0, chest_pain=0,
shock_index=0.2, sbp=110), remaining fields chosen arbitrarily. -/
def patientD : Patient :=
  { age := 50, sex := 1, hr := 90, sbp := 110, dbp := 70, rr := 18, spo2 := 97,
    temp := 37, dyspnea := 0, chest_pain := 0, confusion := 0, comorb := 0,
    pulse_pressure := 40, map := 83, shock_index := 0.2, abnormal_count := 4 }

/-- A vital record matching spec Scenario C with adequate oxygenation:
hr=140, sbp=120, shock_index=0.5, spo2=92. -/
def patientC : Patient :=
  { age := 60, sex := 0, hr := 140, sbp := 120, dbp := 80, rr := 20, spo2 := 92,
    temp := 37, dyspnea := 0, chest_pain := 0, confusion := 0, comorb := 0,
    pulse_pressure := 40, map := 93, shock_index := 0.5, abnormal_count := 2 }

/-- Scenario C's vitals but with hypoxia (spo2=80): hr=140, sbp=120,
shock_index=0.5, spo2=80. -/
def patientC_hypoxic : Patient :=
  { age := 60, sex := 0, hr := 140, sbp := 120, dbp := 80, rr := 20, spo2 := 80,
    temp := 37, dyspnea := 0, chest_pain := 0, confusion := 0, comorb := 0,
    pulse_pressure := 40, map := 93, shock_index := 0.5, abnormal_count := 2 }

/-- A vital record matching spec Scenario A: shock_index=1.1, sbp=85,
spo2=92, hr=90. -/
def patientA : Patient :=
  { age := 45, sex := 1, hr := 90, sbp := 85, dbp := 60, rr := 22, spo2 := 92,
    temp := 38, dyspnea := 1, chest_pain := 0, confusion := 0, comorb := 1,
    pulse_pressure := 25, map := 68, shock_index := 1.1, abnormal_count := 3 }

/-- A hypoxic vital record matching spec Scenario B: spo2=80,
shock_index=0.3, sbp=120, hr=90. -/
def patientB : Patient :=
  { age := 30, sex := 0, hr := 90, sbp := 120, dbp := 80, rr := 16, spo2 := 80,
    temp := 37, dyspnea := 0, chest_pain := 0, confusion := 0, comorb := 0,
    pulse_pressure := 40, map := 93, shock_index := 0.3, abnormal_count := 1 }

/-- Scenario D's shock index 0.2 is below the rule-1 threshold 0.9. -/
theorem patientD_shock_le : patientD.shock_index ≤ 0.9 := by
  norm_num [patientD]

/-- C1: for every patient record with shock_index > 0.9 or sbp < 90, the
rule engine returns the risk category Immediate, regardless of all other
fields (and of the randomized-branch outcome). -/
theorem C1_rule1_immediate (coin : Bool) (p : Patient)
    (h : p.shock_index > 0.9 ∨ p.sbp < 90) :
    (get_rule_based_prediction coin p).risk = "Immediate (RED)" := by
  simp only [get_rule_based_prediction]
  rw [if_pos h]

/-- Witness for C1 at the Scenario A record (sbp = 85 < 90). -/
theorem C1_rule1_immediate_witness :
    (get_rule_based_prediction true patientA).risk = "Immediate (RED)" :=
  C1_rule1_immediate true patientA (Or.inr (by decide))

/-- C2: for every patient record with spo2 < 88 and every risk category
string, the intervention policy returns Oxygen. -/
theorem C2_hypoxia_oxygen (p : Patient) (risk_class : String)
    (h : p.spo2 < 88) :
    rule_based_intervention p risk_class = "Oxygen" := by
  simp only [rule_based_intervention]
  rw [if_pos h]

/-- Witness for C2 at the Scenario B record (spo2 = 80) with risk category
Minimal. -/
theorem C2_hypoxia_oxygen_witness :
    rule_based_intervention patientB "Minimal (GREEN)" = "Oxygen" :=
  C2_hypoxia_oxygen patientB "Minimal (GREEN)" (by decide)

/-- C5: for every patient record with spo2 >= 88, passing the Immediate
risk category to the intervention policy yields ICU. -/
theorem C5_immediate_icu (p : Patient) (h : 88 ≤ p.spo2) :
    rule_based_intervention p "Immediate (RED)" = "ICU" := by
  simp only [rule_based_intervention]
  rw [if_neg (not_lt.mpr h), if_pos (by decide : strLower "Immediate (RED)" = "immediate (red)")]

/-- Witness for C5 at the Scenario C record (spo2 = 92). -/
theorem C5_immediate_icu_witness :
    rule_based_intervention patientC "Immediate (RED)" = "ICU" :=
  C5_immediate_icu patientC (by decide)

/-- C6: whenever rule 1 does not fire (shock_index <= 0.9 and sbp >= 90)
and rule 2's condition holds (abnormal_count >= 3 or confusion = 1 or
chest_pain = 1), the rule engine returns Delayed. -/
theorem C6_rule2_delayed (coin : Bool) (p : Patient)
    (h1 : p.shock_index ≤ 0.9) (h2 : 90 ≤ p.sbp)
    (h3 : p.abnormal_count ≥ 3 ∨ p.confusion = 1 ∨ p.chest_pain = 1) :
    (get_rule_based_prediction coin p).risk = "Delayed (YELLOW)" := by
  have hn : ¬ (p.shock_index > 0.9 ∨ p.sbp < 90) := by
    push_neg
    exact ⟨h1, h2⟩
  simp only [get_rule_based_prediction]
  rw [if_neg hn, if_pos h3]

/-- Witness for C6 at the Scenario D record (abnormal_count=4, confusion=0,
chest_pain=0, shock_index=0.2, sbp=110): risk is Delayed. -/
theorem C6_rule2_delayed_witness :
    (get_rule_based_prediction true patientD).risk = "Delayed (YELLOW)" :=
  C6_rule2_delayed true patientD patientD_shock_le (by decide) (Or.inl (by decide))

/-- C7: the rule engine is total — for every record and every
randomized-branch outcome, the risk is one of the three categories
Immediate, Delayed, Minimal; there is no error outcome and no unknown
category. -/
theorem C7_total (coin : Bool) (p : Patient) :
    (get_rule_based_prediction coin p).risk = "Immediate (RED)" ∨
    (get_rule_based_prediction coin p).risk = "Delayed (YELLOW)" ∨
    (get_rule_based_prediction coin p).risk = "Minimal (GREEN)" := by
  simp only [get_rule_based_prediction]
  split_ifs <;> simp

/-- C10: the rule engine returns Immediate only when rule 1 fires — for
every record with shock_index <= 0.9 and sbp >= 90 the result is Delayed
or Minimal, in particular never Immediate, whatever the randomized branch
picks. -/
theorem C10_immediate_only_rule1 (coin : Bool) (p : Patient)
    (h1 : p.shock_index ≤ 0.9) (h2 : 90 ≤ p.sbp) :
    ((get_rule_based_prediction coin p).risk = "Delayed (YELLOW)" ∨
      (get_rule_based_prediction coin p).risk = "Minimal (GREEN)") ∧
    (get_rule_based_prediction coin p).risk ≠ "Immediate (RED)" := by
  have hn : ¬ (p.shock_index > 0.9 ∨ p.sbp < 90) := by
    push_neg
    exact ⟨h1, h2⟩
  simp only [get_rule_based_prediction]
  rw [if_neg hn]
  split_ifs <;> simp

/-- Witness for C10 at the Scenario D record (shock_index=0.2, sbp=110),
with the randomized branch set to Minimal. -/
theorem C10_immediate_only_rule1_witness :
    ((get_rule_based_prediction false patientD).risk = "Delayed (YELLOW)" ∨
      (get_rule_based_prediction false patientD).risk = "Minimal (GREEN)") ∧
    (get_rule_based_prediction false patientD).risk ≠ "Immediate (RED)" :=
  C10_immediate_only_rule1 false patientD patientD_shock_le (by decide)

/-- C3: if no classifier is loaded, or the loaded classifier raises on
every record, the classifier adapter returns exactly the rule engine's
result (same randomized-branch outcome), and no classifier error reaches
the caller. -/
theorem C3_fallback (model : Option (Patient → Except String Int))
    (h : model = none ∨
      ∃ clf, model = some clf ∧ ∀ q, ∃ e, clf q = Except.error e)
    (coin : Bool) (p : Patient) :
    get_model_prediction model coin p = get_rule_based_prediction coin p := by
  rcases h with rfl | ⟨clf, rfl, hclf⟩
  · rfl
  · obtain ⟨e, he⟩ := hclf p
    simp only [get_model_prediction, he]

/-- Witness for C3 with a classifier stub that always raises, at the
Scenario D record. -/
theorem C3_fallback_witness :
    get_model_prediction (some fun _ => Except.error "boom") true patientD =
      get_rule_based_prediction true patientD :=
  C3_fallback (some fun _ => Except.error "boom")
    (Or.inr ⟨_, rfl, fun _ => ⟨"boom", rfl⟩⟩) true patientD

/-- C8: when the loaded classifier succeeds, the adapter maps the class
label 0 to Minimal, 1 to Delayed, and any other label to Immediate. -/
theorem C8_label_map (clf : Patient → Except String Int) (coin : Bool)
    (p : Patient) (c : Int) (h : clf p = Except.ok c) :
    (get_model_prediction (some clf) coin p).risk =
      if c = 0 then "Minimal (GREEN)"
      else if c = 1 then "Delayed (YELLOW)"
      else "Immediate (RED)" := by
  simp only [get_model_prediction, h]

/-- Witness for C8 at class label 2 (maps to Immediate) on the Scenario D
record. -/
theorem C8_label_map_witness :
    (get_model_prediction (some fun _ => Except.ok 2) true patientD).risk =
      "Immediate (RED)" := by
  have h := C8_label_map (fun _ => Except.ok 2) true patientD 2 rfl
  simpa using h

/-- C4 counterexample: "BORED" is none of the three category strings, so
it is unrecognized, yet its score is 0.9 rather than 0.2, because the
scorer matches the substring "RED". -/
theorem C4_counterexample :
    ("BORED" ≠ "Immediate (RED)" ∧ "BORED" ≠ "Delayed (YELLOW)" ∧
      "BORED" ≠ "Minimal (GREEN)") ∧
    map_risk_to_score "BORED" ≠ 0.2 ∧ map_risk_to_score "BORED" = 0.9 := by
  have h : strContains "BORED" "RED" = true := rfl
  have hv : map_risk_to_score "BORED" = 0.9 := by simp [map_risk_to_score, h]
  exact ⟨by decide, by rw [hv]; norm_num, hv⟩

/-- C4 amended: the scorer maps the three category strings to 0.9, 0.6,
0.2; any string containing neither "RED" nor "YELLOW" as a substring gets
the default 0.2; and every result lies in [0,1]. -/
theorem C4_amended_scorer :
    map_risk_to_score "Immediate (RED)" = 0.9 ∧
    map_risk_to_score "Delayed (YELLOW)" = 0.6 ∧
    map_risk_to_score "Minimal (GREEN)" = 0.2 ∧
    (∀ risk, strContains risk "RED" = false → strContains risk "YELLOW" = false →
      map_risk_to_score risk = 0.2) ∧
    (∀ risk, 0 ≤ map_risk_to_score risk ∧ map_risk_to_score risk ≤ 1) := by
  refine ⟨?_, ?_, ?_, ?_, ?_⟩
  · have h : strContains "Immediate (RED)" "RED" = true := rfl
    simp [map_risk_to_score, h]
  · have h1 : strContains "Delayed (YELLOW)" "RED" = false := rfl
    have h2 : strContains "Delayed (YELLOW)" "YELLOW" = true := rfl
    simp [map_risk_to_score, h1, h2]
  · have h1 : strContains "Minimal (GREEN)" "RED" = false := rfl
    have h2 : strContains "Minimal (GREEN)" "YELLOW" = false := rfl
    simp [map_risk_to_score, h1, h2]
  · intro risk h1 h2
    simp [map_risk_to_score, h1, h2]
  · intro risk
    unfold map_risk_to_score
    split_ifs <;> constructor <;> norm_num

/-- Witness for C4 amended: the default clause and the lower bound at the
unrecognized category "Unknown". -/
theorem C4_amended_scorer_witness :
    map_risk_to_score "Unknown" = 0.2 ∧ 0 ≤ map_risk_to_score "Unknown" :=
  ⟨C4_amended_scorer.2.2.2.1 "Unknown" rfl rfl,
    (C4_amended_scorer.2.2.2.2 "Unknown").1⟩

/-- C9 counterexample: with hr=140, sbp=120, shock_index=0.5 but spo2=80,
the intervention for risk Delayed is Oxygen, not Ventilator — the hypoxia
rule precedes the tachycardia rule, so the claim fails for this choice of
the remaining fields. -/
theorem C9_counterexample :
    patientC_hypoxic.hr = 140 ∧ patientC_hypoxic.sbp = 120 ∧
    patientC_hypoxic.shock_index = 0.5 ∧
    rule_based_intervention patientC_hypoxic "Delayed (YELLOW)" = "Oxygen" ∧
    rule_based_intervention patientC_hypoxic "Delayed (YELLOW)" ≠ "Ventilator" :=
  ⟨rfl, rfl, rfl, by decide, by decide⟩

/-- C9 amended: for every record with hr=140, sbp=120, shock_index=0.5 and
spo2 >= 88, the intervention for risk Delayed is Ventilator (tachycardia
override), for every assignment of the remaining fields. -/
theorem C9_amended_ventilator (p : Patient)
    (h1 : p.hr = 140) (h2 : p.sbp = 120) (h3 : p.shock_index = 0.5)
    (h4 : 88 ≤ p.spo2) :
    rule_based_intervention p "Delayed (YELLOW)" = "Ventilator" := by
  simp only [rule_based_intervention]
  rw [if_neg (not_lt.mpr h4),
    if_neg (by decide : ¬ strLower "Delayed (YELLOW)" = "immediate (red)"),
    if_pos (Or.inl (by rw [h1]; decide))]

/-- Witness for C9 amended at the Scenario C record (spo2 = 92). -/
theorem C9_amended_ventilator_witness :
    rule_based_intervention patientC "Delayed (YELLOW)" = "Ventilator" :=
  C9_amended_ventilator patientC rfl rfl rfl (by decide)

end Triage
